import Mathlib

/-!
Shallow embedding of the core of `ethereum_rust_execution`: the RPC error
taxonomy and handler dispatch (`src/crates/rpc/utils.rs`,
`src/crates/rpc/handler.rs`), the `engine_newPayloadV3` pipeline
(`src/crates/rpc/engine/mod.rs`), and the execution adapter
(`src/crates/evm/evm.rs`).

Conventions of the embedding:
* 20-byte addresses, 32-byte hashes and 256-bit words are modelled as `Nat`;
  byte strings as `List Nat`.
* Store reads are modelled as total functions on a functional `Store`
  record (the `Err`/corruption branches of the Rust store, which map to
  `RpcErr::Internal`, are outside every claim considered here).
* Code of the repository that lives in crates not included under `src/`
  (`ethereum_rust_core`, `ethereum_rust_storage`, the `execution_result`
  module) and the external `revm` backend are modelled from the spec; each
  such definition carries a doc comment saying so.  The EVM interpreter
  itself is an opaque oracle parameter, exactly as the spec declares it an
  external collaborator.
* Store mutations are reified as a write log (`StoreWrite` list) so that
  frame conditions ("writes nothing") are provable.
-/

/-- 20-byte address, modelled as `Nat`. -/
abbrev Address := Nat

/-- 32-byte hash (block hash, code hash, storage key/value, blob hash). -/
abbrev H256 := Nat

/-- Byte string. -/
abbrev Bytes := List Nat

/- ### RPC error taxonomy (`src/crates/rpc/utils.rs`, `engine/mod.rs`) -/

/-- The wire-visible error taxonomy.  `src/crates/rpc/utils.rs` declares the
constructors `MethodNotFound`, `BadParams`, `UnsuportedFork` (sic) and
`Internal`; `src/crates/rpc/engine/mod.rs` additionally uses `RpcErr::Vm`
(mapping `execute_block` failures), a variant the `utils.rs` in this source
snapshot does not declare.  The embedding carries all five constructors so
that both files can be expressed; the metadata mapping below covers exactly
the arms `utils.rs` provides. -/
inductive RpcErr where
  | MethodNotFound
  | BadParams
  | UnsuportedFork
  | Internal
  | Vm
  deriving DecidableEq, Repr

/-- JSON-RPC error metadata (`RpcErrorMetadata` in `utils.rs`). -/
structure RpcErrorMetadata where
  code : Int
  message : String
  deriving DecidableEq, Repr

/-- The `From<RpcErr> for RpcErrorMetadata` impl of `utils.rs`, arm by arm.
`utils.rs` has no arm for `Vm` (the variant is absent from its enum), so the
mapping is `Option`-valued and `Vm` is sent to `none`. -/
def rpcErrorMetadata : RpcErr → Option RpcErrorMetadata
  | .MethodNotFound => some ⟨-32601, "Method not found"⟩
  | .BadParams => some ⟨-32602, "Invalid params"⟩
  | .UnsuportedFork => some ⟨-38005, "Unsupported fork"⟩
  | .Internal => some ⟨-32603, "Internal Error"⟩
  | .Vm => none

/- ### JSON-RPC request/response surface (`utils.rs`, `handler.rs`) -/

/-- Opaque model of `serde_json::Value`. -/
structure JsonValue where
  raw : Nat
  deriving DecidableEq, Repr

/-- `RpcRequest` of `utils.rs`. -/
structure RpcRequest where
  id : Int
  jsonrpc : String
  method : String
  params : Option (List JsonValue)
  deriving DecidableEq, Repr

/-- `RpcSuccessResponse` of `utils.rs`. -/
structure RpcSuccessResponse where
  id : Int
  jsonrpc : String
  result : JsonValue
  deriving DecidableEq, Repr

/-- `RpcErrorResponse` of `utils.rs`. -/
structure RpcErrorResponse where
  id : Int
  jsonrpc : String
  error : RpcErrorMetadata
  deriving DecidableEq, Repr

/-- The JSON body produced by `rpc_response`. -/
inductive RpcResponseBody where
  | success (r : RpcSuccessResponse)
  | failure (r : RpcErrorResponse)
  deriving DecidableEq, Repr

/-- `rpc_response` of `utils.rs`: wraps a result into a JSON-RPC 2.0
success or error body.  The error arm goes through the (partial, see
`rpcErrorMetadata`) conversion to metadata. -/
def rpc_response (id : Int) (res : Except RpcErr JsonValue) : Option RpcResponseBody :=
  match res with
  | .ok result => some (.success ⟨id, "2.0", result⟩)
  | .error e => (rpcErrorMetadata e).map (fun m => .failure ⟨id, "2.0", m⟩)

/- ### Handler dispatch (`src/crates/rpc/handler.rs`) -/

/-- `map_internal_requests` of `handler.rs`: requests from other clients.
The body is literally `Err(RpcErr::MethodNotFound)` for every request. -/
def map_internal_requests (_req : RpcRequest) : Except RpcErr JsonValue :=
  .error RpcErr.MethodNotFound

/-- `handle_authrpc_request` of `handler.rs`.  The body string is parsed
(with panic on failure) by `serde_json::from_str`, modelled as the total
oracle `parseBody`; the per-method dispatch `map_requests` calls handlers
that live outside `src/`, so it is likewise an oracle parameter — the
function embedded here is exactly the glue in `handler.rs`. -/
def handle_authrpc_request (parseBody : String → RpcRequest)
    (map_requests : RpcRequest → Except RpcErr JsonValue)
    (body : String) : Option RpcResponseBody :=
  let req := parseBody body
  let res :=
    match map_internal_requests req with
    | .error RpcErr.MethodNotFound => map_requests req
    | res => res
  rpc_response req.id res

/-- `handle_http_request` of `handler.rs`. -/
def handle_http_request (parseBody : String → RpcRequest)
    (map_requests : RpcRequest → Except RpcErr JsonValue)
    (body : String) : Option RpcResponseBody :=
  let req := parseBody body
  rpc_response req.id (map_requests req)

/- ### Block data model -/

/-- Block header.  Fields are the ones consumed by the code under `src/`
(the pipeline, `block_env`, and header validation); the remaining Cancun
fields (roots, bloom, extra data, …) play no role in any claim considered
here.  Modelled from the spec: `BlockHeader` lives in `ethereum_rust_core`,
which is not under `src/`. -/
structure BlockHeader where
  parent_hash : H256
  number : Nat
  timestamp : Nat
  coinbase : Address
  gas_limit : Nat
  base_fee_per_gas : Nat
  difficulty : Nat
  prev_randao : H256
  parent_beacon_block_root : Option H256
  deriving DecidableEq, Repr

/-- Transaction, projected onto the fields the pipeline consumes:
`blob_versioned_hashes` (empty for non-4844 variants).  `tx_type()` is used
only for logging in `new_payload_v3` and has no effect on the result.
Modelled from the spec: `Transaction` lives in `ethereum_rust_core`. -/
structure Transaction where
  blob_versioned_hashes : List H256
  deriving DecidableEq, Repr

/-- Block body (withdrawals/ommers are opaque to every claim here).
Modelled from the spec: `BlockBody` lives in `ethereum_rust_core`. -/
structure BlockBody where
  transactions : List Transaction
  deriving DecidableEq, Repr

/-- Block.  Modelled from the spec: `Block` lives in `ethereum_rust_core`. -/
structure Block where
  header : BlockHeader
  body : BlockBody
  deriving DecidableEq, Repr

/- ### Store adapter and write log -/

/-- `AccountInfo` persisted per address (spec §3). -/
structure AccountInfo where
  code_hash : H256
  balance : Nat
  nonce : Nat
  deriving DecidableEq, Repr

/-- A single Store mutation, reified.  Covers the write surface used by
`apply_state_transitions` and `new_payload_v3`. -/
inductive StoreWrite where
  | removeAccount (address : Address)
  | addAccountInfo (address : Address) (info : AccountInfo)
  | addAccountCode (code_hash : H256) (code : Bytes)
  | addStorageAt (address : Address) (key : H256) (value : H256)
  | addBlockNumber (block_hash : H256) (number : Nat)
  | addBlock (block : Block)
  deriving DecidableEq, Repr

/-- Functional model of the read surface of the `Store` that
`new_payload_v3` consumes: the Cancun activation timestamp and the
block-header-by-number index.  Modelled from the spec: the store lives in
`ethereum_rust_storage`, not under `src/`. -/
structure Store where
  cancunTime : Option Nat
  headers : Nat → Option BlockHeader

/- ### Payload pipeline types (`src/crates/rpc/engine/mod.rs`) -/

inductive PayloadStatusKind where
  | Valid
  | Invalid
  | Syncing
  deriving DecidableEq, Repr

/-- The Engine-API reply object (spec §4.3). -/
structure PayloadStatus where
  status : PayloadStatusKind
  latestValidHash : Option H256
  validationError : Option String
  deriving DecidableEq, Repr

/-- Modelled from the spec: `PayloadStatus::invalid_with_err` of
`ethereum_rust_core` — `INVALID` with a validation-error message. -/
def PayloadStatus.invalid_with_err (err : String) : PayloadStatus :=
  ⟨.Invalid, none, some err⟩

/-- Modelled from the spec: `PayloadStatus::invalid_with_hash` — `INVALID`
carrying a `latestValidHash`. -/
def PayloadStatus.invalid_with_hash (hash : H256) : PayloadStatus :=
  ⟨.Invalid, some hash, none⟩

/-- Modelled from the spec: `PayloadStatus::syncing` —
`{ status: SYNCING, latestValidHash: null }`. -/
def PayloadStatus.syncing : PayloadStatus :=
  ⟨.Syncing, none, none⟩

/-- Modelled from the spec: `PayloadStatus::valid_with_hash` — `VALID`
carrying the block hash as `latestValidHash`. -/
def PayloadStatus.valid_with_hash (hash : H256) : PayloadStatus :=
  ⟨.Valid, some hash, none⟩

/-- The decoded `ExecutionPayloadV3`, modelled from the spec: it carries the
header fields and transactions of the proposed block together with the
untrusted `block_hash`, and its conversion to a `Block` may fail (RLP/size
errors), recorded here as an optional decode error. -/
structure ExecutionPayloadV3 where
  block_hash : H256
  header : BlockHeader
  transactions : List Transaction
  decode_error : Option String

/-- Modelled from the spec: `ExecutionPayloadV3::into_block` reconstructs
the block from the payload with the parent beacon root stitched into the
header; failures surface as an error string. -/
def ExecutionPayloadV3.into_block (p : ExecutionPayloadV3)
    (parent_beacon_block_root : H256) : Except String Block :=
  match p.decode_error with
  | some e => .error e
  | none =>
    .ok { header := { p.header with parent_beacon_block_root := some parent_beacon_block_root },
          body := { transactions := p.transactions } }

/-- `NewPayloadV3Request` of `engine/mod.rs`. -/
structure NewPayloadV3Request where
  payload : ExecutionPayloadV3
  expected_blob_versioned_hashes : List H256
  parent_beacon_block_root : H256

/-- The Cancun fork gate of `new_payload_v3`, line for line:
`match storage.get_cancun_time() { Some(t) if timestamp > t => pass, _ => reject }`. -/
def cancunGate (cancun_time : Option Nat) (timestamp : Nat) : Bool :=
  match cancun_time with
  | some t => timestamp > t
  | none => false

/-- `new_payload_v3` of `src/crates/rpc/engine/mod.rs`.

Oracle parameters stand for repository code outside `src/`:
`compute_block_hash` for `BlockHeader::compute_block_hash`
(`ethereum_rust_core`; the spec fixes only that it is a deterministic
function of the full header), `validate_block_header` for the header
validator of `ethereum_rust_core`, and `execute_block` for the
`ethereum_rust_evm` entry point run at `SpecId::CANCUN` (`none` is an
execution error; `some ws` is success together with the Store writes its
final `apply` performs).  The returned list is the log of Store writes the
call performs. -/
def new_payload_v3 (compute_block_hash : BlockHeader → H256)
    (validate_block_header : BlockHeader → BlockHeader → Bool)
    (execute_block : Block → Store → Option (List StoreWrite))
    (request : NewPayloadV3Request) (storage : Store) :
    Except RpcErr PayloadStatus × List StoreWrite :=
  let block_hash := request.payload.block_hash
  match request.payload.into_block request.parent_beacon_block_root with
  | .error e => (.ok (PayloadStatus.invalid_with_err e), [])
  | .ok block =>
    -- Check timestamp does not fall within the time frame of the Cancun fork
    if cancunGate storage.cancunTime block.header.timestamp then
      -- Check that block_hash is valid
      let actual_block_hash := compute_block_hash block.header
      if block_hash ≠ actual_block_hash then
        (.ok (PayloadStatus.invalid_with_err "Invalid block hash"), [])
      else
        -- Concatenate blob versioned hashes lists of each transaction,
        -- respecting the order of inclusion
        let blob_versioned_hashes :=
          (block.body.transactions.map Transaction.blob_versioned_hashes).flatten
        if request.expected_blob_versioned_hashes ≠ blob_versioned_hashes then
          (.ok (PayloadStatus.invalid_with_err "Invalid blob_versioned_hashes"), [])
        else
          -- Fetch parent block header and validate current header
          match storage.headers (block.header.number - 1) with
          | some parent_header =>
            if ! validate_block_header block.header parent_header then
              (.ok (PayloadStatus.invalid_with_hash (compute_block_hash parent_header)), [])
            else
              -- Execute and store the block
              match execute_block block storage with
              | none => (.error RpcErr.Vm, [])
              | some ws =>
                (.ok (PayloadStatus.valid_with_hash block_hash),
                  ws ++ [StoreWrite.addBlockNumber block_hash block.header.number,
                         StoreWrite.addBlock block])
          | none => (.ok PayloadStatus.syncing, [])
    else (.error RpcErr.UnsuportedFork, [])

/- ### Execution adapter (`src/crates/evm/evm.rs`) -/

/-- Outcome of one EVM execution.  Modelled from the spec: the
`execution_result` module of the evm crate is not under `src/`
(`Success { gas_used, logs, output } | Revert { gas_used, output } |
Halt { reason, gas_used }`). -/
inductive ExecutionResult where
  | Success (gas_used : Nat) (logs : List Bytes) (output : Bytes)
  | Revert (gas_used : Nat) (output : Bytes)
  | Halt (reason : String) (gas_used : Nat)
  deriving DecidableEq, Repr

/-- `ExecutionResult::is_success`: holds exactly on the `Success` variant. -/
def ExecutionResult.is_success : ExecutionResult → Bool
  | .Success _ _ _ => true
  | _ => false

/-- Modelled from the spec: `EvmError` of the evm crate's `errors` module,
`{ Backend(detail), DatabaseError, InvalidTransaction(reason) }`. -/
inductive EvmError where
  | Backend (detail : String)
  | DatabaseError
  | InvalidTransaction (reason : String)
  deriving DecidableEq, Repr

/-- revm transaction target. -/
inductive TxKind where
  | Call (address : Address)
  | Create
  deriving DecidableEq, Repr

/-- The revm `TxEnv` fields populated by `evm.rs` (the remaining revm
fields are left at `..Default::default()` by the source and play no role). -/
structure TxEnv where
  caller : Address
  gas_limit : Nat
  gas_price : Nat
  transact_to : TxKind
  value : Nat
  data : Bytes
  nonce : Option Nat
  chain_id : Option Nat
  access_list : List (Address × List H256)
  gas_priority_fee : Option Nat
  blob_hashes : List H256
  max_fee_per_blob_gas : Option Nat
  deriving DecidableEq, Repr

/-- The revm `BlockEnv` fields populated by `block_env`. -/
structure BlockEnv where
  number : Nat
  coinbase : Address
  timestamp : Nat
  gas_limit : Nat
  basefee : Nat
  difficulty : Nat
  prevrandao : Option H256
  deriving DecidableEq, Repr

/-- The two revm `CfgEnv` switches touched by `evm.rs`. -/
structure CfgEnv where
  disable_base_fee : Bool
  disable_block_gas_limit : Bool
  deriving DecidableEq, Repr

/-- revm's default configuration: both checks enabled. -/
def defaultCfg : CfgEnv := ⟨false, false⟩

/-- The configuration produced by the `modify_cfg_env` closure shared by
`create_access_list_inner` and `estimate_gas`:
`env.disable_base_fee = true; env.disable_block_gas_limit = true`. -/
def feeChecksDisabledCfg : CfgEnv :=
  { defaultCfg with disable_base_fee := true, disable_block_gas_limit := true }

/-- `block_env` of `evm.rs`: the block environment derived from a header. -/
def block_env (header : BlockHeader) : BlockEnv :=
  { number := header.number
    coinbase := header.coinbase
    timestamp := header.timestamp
    gas_limit := header.gas_limit
    basefee := header.base_fee_per_gas
    difficulty := header.difficulty
    prevrandao := some header.prev_randao }

/-- Big-endian 32-byte view of a hash (`H256::as_bytes`). -/
def hashToBytes (h : H256) : Bytes :=
  (List.range 32).map (fun i => h / 2 ^ (8 * (31 - i)) % 256)

/-- `beacon_root_contract_call` of `evm.rs`: the EIP-4788 system call.
`run_evm` is the oracle for the revm `transact_commit` step (the `state`
and `spec_id` arguments of the source are absorbed into it); the function
body builds the literal synthetic transaction environment of the source and
the block environment with `basefee` forced to zero. -/
def beacon_root_contract_call
    (run_evm : TxEnv → BlockEnv → Except EvmError ExecutionResult)
    (beacon_root : H256) (header : BlockHeader) : Except EvmError ExecutionResult :=
  let tx_env : TxEnv :=
    { caller := 0xfffffffffffffffffffffffffffffffffffffffe
      transact_to := TxKind.Call 0x000F3df6D732807Ef1319fB7B8bB8522d0Beac02
      nonce := none
      gas_limit := 30000000
      value := 0
      data := hashToBytes beacon_root
      gas_price := 0
      chain_id := none
      gas_priority_fee := none
      access_list := []
      blob_hashes := []
      max_fee_per_blob_gas := none }
  let blockEnv := { block_env header with basefee := 0 }
  run_evm tx_env blockEnv

/- ### Access-list creation (`src/crates/evm/evm.rs`) -/

/-- revm `AccessListItem`. -/
structure RevmAccessListItem where
  address : Address
  storage_keys : List H256
  deriving DecidableEq, Repr

/-- revm `AccessList` (the newtype around the item vector). -/
abbrev RevmAccessList := List RevmAccessListItem

/-- The crate-level `AccessList` alias `Vec<(Address, Vec<H256>)>`. -/
abbrev AccessList := List (Address × List H256)

/-- Access-list entry of `ethereum_rust_core`'s `GenericTransaction`.
Modelled from the spec: `access_list: [(Address, [Hash])]`. -/
structure AccessListEntry where
  address : Address
  storage_keys : List H256
  deriving DecidableEq, Repr

/-- The fields of `ethereum_rust_core::types::GenericTransaction` read by
`tx_env_from_generic`.  Modelled from the spec: the type lives outside
`src/`; `from_addr` stands for the Rust field `from`. -/
structure GenericTransaction where
  from_addr : Address
  gas : Option Nat
  gas_price : Nat
  «to» : TxKind
  value : Nat
  input : Bytes
  nonce : Nat
  chain_id : Option Nat
  access_list : List AccessListEntry
  max_priority_fee_per_gas : Option Nat
  blob_versioned_hashes : List H256
  max_fee_per_blob_gas : Option Nat
  deriving DecidableEq, Repr

/-- `tx_env_from_generic` of `evm.rs`: builds the transaction environment
used to estimate gas and create access lists.  `tx.gas.unwrap_or(u64::MAX)`
becomes `getD` with the `u64` maximum; the byte-level `U256`/`B256`
conversions of the source are the identity on the `Nat` model. -/
def tx_env_from_generic (tx : GenericTransaction) : TxEnv :=
  { caller := tx.from_addr
    gas_limit := tx.gas.getD 18446744073709551615
    gas_price := tx.gas_price
    transact_to := tx.«to»
    value := tx.value
    data := tx.input
    nonce := some tx.nonce
    chain_id := tx.chain_id
    access_list := tx.access_list.map (fun entry => (entry.address, entry.storage_keys))
    gas_priority_fee := tx.max_priority_fee_per_gas
    blob_hashes := tx.blob_versioned_hashes
    max_fee_per_blob_gas := tx.max_fee_per_blob_gas }

/-- `create_access_list_inner` of `evm.rs`: one EVM run with the
access-list inspector attached and the fee checks disabled.  `inspect` is
the oracle for revm's `transact` with the inspector handler (its second
component is the inspector's final access list); the `CfgEnv` it receives
is exactly the one the source's `modify_cfg_env` closure produces. -/
def create_access_list_inner
    (inspect : TxEnv → BlockEnv → CfgEnv → Except EvmError (ExecutionResult × RevmAccessList))
    (tx_env : TxEnv) (blockEnv : BlockEnv) :
    Except EvmError (ExecutionResult × RevmAccessList) :=
  inspect tx_env blockEnv feeChecksDisabledCfg

/-- `estimate_gas` of `evm.rs`: one plain EVM run with the fee checks
disabled.  `transact` is the oracle for revm's `transact`. -/
def estimate_gas
    (transact : TxEnv → BlockEnv → CfgEnv → Except EvmError ExecutionResult)
    (tx_env : TxEnv) (blockEnv : BlockEnv) : Except EvmError ExecutionResult :=
  transact tx_env blockEnv feeChecksDisabledCfg

/-- `create_access_list` of `evm.rs`: a discovery run, and — only when it
succeeded — a gas-estimation run with the discovered list appended to the
transaction's original `access_list`; on revert or halt the first result is
returned unchanged.  Both runs go through the fee-checks-disabled
configuration.  The key/byte conversions of the source are the identity on
the `Nat` model. -/
def create_access_list
    (inspect : TxEnv → BlockEnv → CfgEnv → Except EvmError (ExecutionResult × RevmAccessList))
    (transact : TxEnv → BlockEnv → CfgEnv → Except EvmError ExecutionResult)
    (tx : GenericTransaction) (header : BlockHeader) :
    Except EvmError (ExecutionResult × AccessList) :=
  let tx_env := tx_env_from_generic tx
  let blockEnv := block_env header
  -- Run tx with access list inspector (`?` written as an explicit match)
  match create_access_list_inner inspect tx_env blockEnv with
  | .error e => .error e
  | .ok (execution_result, access_list) =>
    -- Run the tx with the resulting access list and estimate its gas used
    let estimated :=
      if execution_result.is_success then
        estimate_gas transact
          { tx_env with access_list := tx_env.access_list ++ access_list.map (fun item => (item.address, item.storage_keys)) }
          blockEnv
      else .ok execution_result
    match estimated with
    | .error e => .error e
    | .ok execution_result =>
      .ok (execution_result, access_list.map (fun item => (item.address, item.storage_keys)))

/- ### Bundle application (`apply_state_transitions` of `evm.rs`) -/

/-- The two status predicates of a revm bundle account that
`apply_state_transitions` consults.  Modelled from the spec: §3 describes
the bundle-account status as independent flags (`modified`, `destroyed`);
revm's `AccountStatus::DestroyedChanged` (self-destruct followed by a
re-create in the same block, spec §8 scenario 6) realises
`was_destroyed = true` together with a present, changed info. -/
structure BundleAccountStatus where
  is_not_modified : Bool
  was_destroyed : Bool
  deriving DecidableEq, Repr

/-- revm's account info as carried by a bundle account (code is optional). -/
structure RevmAccountInfo where
  code_hash : H256
  balance : Nat
  nonce : Nat
  code : Option Bytes
  deriving DecidableEq, Repr

/-- One storage slot of a bundle account, as consulted by
`apply_state_transitions`. -/
structure StorageSlot where
  present_value : H256
  is_changed : Bool
  deriving DecidableEq, Repr

/-- A revm bundle account, projected onto the accessor surface
`apply_state_transitions` reads (`status`, `is_info_changed`,
`account_info`, `is_contract_changed`, `storage`).  Modelled from the spec
§3 (`TransitionBundle`). -/
structure BundleAccount where
  status : BundleAccountStatus
  is_info_changed : Bool
  account_info : Option RevmAccountInfo
  is_contract_changed : Bool
  storage : List (H256 × StorageSlot)
  deriving DecidableEq, Repr

/-- The per-account body of the `for (address, account)` loop of
`apply_state_transitions`, returning the Store writes it performs in
order.  The little-endian limb conversions of the source are the identity
on the `Nat` model. -/
def applyBundleAccount (address : Address) (account : BundleAccount) : List StoreWrite :=
  if account.status.is_not_modified then []
  else
    -- Remove account from DB if destroyed
    (if account.status.was_destroyed then [StoreWrite.removeAccount address] else [])
    -- Apply account changes to DB
    ++ (if account.is_info_changed then
          match account.account_info with
          | some new_acc_info =>
            let code_hash := new_acc_info.code_hash
            let account_info : AccountInfo :=
              { code_hash := code_hash
                balance := new_acc_info.balance
                nonce := new_acc_info.nonce }
            -- Update account info in DB
            [StoreWrite.addAccountInfo address account_info]
            ++ (if account.is_contract_changed then
                  -- Update code in db
                  match new_acc_info.code with
                  | some code => [StoreWrite.addAccountCode code_hash code]
                  | none => []
                else [])
          | none => []
        else [])
    -- Update account storage in DB
    ++ account.storage.filterMap (fun kv =>
        if kv.2.is_changed then
          some (StoreWrite.addStorageAt address kv.1 kv.2.present_value)
        else none)

/-- `apply_state_transitions` of `evm.rs`, acting on the merged bundle
(`merge_transitions(BundleRetention::PlainState)` followed by
`take_bundle()` — the merge itself happens inside revm, so the argument
here is the already-merged bundle) and returning the stream of Store
writes it performs. -/
def apply_state_transitions (bundle : List (Address × BundleAccount)) : List StoreWrite :=
  (bundle.map (fun av => applyBundleAccount av.1 av.2)).flatten

/- ### Concrete fixtures for closed runs of the pipeline -/

/-- Modelled from the spec: a concrete deterministic header-hash function
standing in for `compute_block_hash` (the spec fixes only that the block
hash is a deterministic function of the full header).  The claim theorems
below quantify over the hash function; this stand-in only drives closed
runs (witnesses and counterexamples). -/
def modelHash (h : BlockHeader) : H256 := h.number * 1000 + h.timestamp

/-- Modelled from the spec: the parent-hash, number-monotonicity and
timestamp checks of `validate_block_header` (`ethereum_rust_core`, not
under `src/`).  The gas-limit-delta and base-fee checks are elided; the
real validator is the conjunction of all its checks, so any *failure* of
the checks modelled here is a failure of the real validator as well. -/
def validate_block_header_model (cbh : BlockHeader → H256) (header parent : BlockHeader) : Bool :=
  (header.parent_hash == cbh parent)
  && (parent.number + 1 == header.number)
  && (decide (header.timestamp > parent.timestamp))

/-- Execution oracle for closed runs: succeeds with no state writes. -/
def execFx : Block → Store → Option (List StoreWrite) := fun _ _ => some []

/-- Parent header stored at height 4 in the fixtures
(`modelHash parentHeaderFx = 5400`). -/
def parentHeaderFx : BlockHeader :=
  { parent_hash := 10, number := 4, timestamp := 1400, coinbase := 1,
    gas_limit := 30000000, base_fee_per_gas := 7, difficulty := 0,
    prev_randao := 3, parent_beacon_block_root := none }

/-- Child header at height 5 whose `parent_hash` matches
`modelHash parentHeaderFx`. -/
def headerFx : BlockHeader :=
  { parent_hash := 5400, number := 5, timestamp := 1500, coinbase := 1,
    gas_limit := 30000000, base_fee_per_gas := 7, difficulty := 0,
    prev_randao := 3, parent_beacon_block_root := none }

/-- Fixture store: Cancun active since 1000, parent header stored at 4. -/
def storeFx : Store :=
  { cancunTime := some 1000
    headers := fun n => if n = 4 then some parentHeaderFx else none }

/-- Well-formed payload for `headerFx`
(`modelHash` of the stitched header is `6500`). -/
def payloadFx : ExecutionPayloadV3 :=
  { block_hash := 6500, header := headerFx, transactions := [], decode_error := none }

/-- Well-formed request carrying `payloadFx`. -/
def requestFx : NewPayloadV3Request :=
  { payload := payloadFx, expected_blob_versioned_hashes := [],
    parent_beacon_block_root := 99 }

/-- The block `payloadFx.into_block 99` reconstructs. -/
def blockFx : Block :=
  { header := { headerFx with parent_beacon_block_root := some 99 },
    body := { transactions := [] } }

/- ## Theorems -/

/-- C1: a `newPayloadV3` payload passes the Cancun fork gate exactly when a
Cancun activation timestamp is configured and the payload timestamp is
strictly greater than it; a payload at the boundary (`timestamp =
cancun_time`) or with no configured activation is answered with the
`UnsupportedFork` error (not a `PayloadStatus`), and a payload at
`cancun_time + 1` passes the gate. -/
theorem cancun_fork_gate_c1
    (cbh : BlockHeader → H256) (vbh : BlockHeader → BlockHeader → Bool)
    (exec : Block → Store → Option (List StoreWrite))
    (request : NewPayloadV3Request) (storage : Store) (block : Block)
    (hdec : request.payload.into_block request.parent_beacon_block_root = Except.ok block) :
    (cancunGate storage.cancunTime block.header.timestamp = true
      ↔ ∃ t, storage.cancunTime = some t ∧ block.header.timestamp > t)
    ∧ ((new_payload_v3 cbh vbh exec request storage).1 = Except.error RpcErr.UnsuportedFork
      ↔ cancunGate storage.cancunTime block.header.timestamp = false)
    ∧ (∀ t, storage.cancunTime = some t → block.header.timestamp = t →
        (new_payload_v3 cbh vbh exec request storage).1 = Except.error RpcErr.UnsuportedFork)
    ∧ (∀ t, storage.cancunTime = some t → block.header.timestamp = t + 1 →
        cancunGate storage.cancunTime block.header.timestamp = true) := by
  have hgate : cancunGate storage.cancunTime block.header.timestamp = true
      ↔ ∃ t, storage.cancunTime = some t ∧ block.header.timestamp > t := by
    cases h : storage.cancunTime with
    | none => simp [cancunGate, h]
    | some t => simp [cancunGate, h]
  have hmain : (new_payload_v3 cbh vbh exec request storage).1
      = Except.error RpcErr.UnsuportedFork
      ↔ cancunGate storage.cancunTime block.header.timestamp = false := by
    simp only [new_payload_v3, hdec]
    cases hc : cancunGate storage.cancunTime block.header.timestamp with
    | false => simp [hc]
    | true =>
      simp only [hc, if_true]
      constructor
      · intro h
        split at h
        · exact absurd h (by simp)
        · split at h
          · exact absurd h (by simp)
          · split at h
            · split at h
              · exact absurd h (by simp)
              · split at h
                · exact absurd h (by simp)
                · exact absurd h (by simp)
            · exact absurd h (by simp)
      · intro h
        exact absurd h (by simp)
  refine ⟨hgate, hmain, ?_, ?_⟩
  · intro t ht hts
    rw [hmain]
    simp [cancunGate, ht, hts]
  · intro t ht hts
    simp [cancunGate, ht, hts]

/-- Witness for C1 at a concrete boundary input: the fixture store with
`cancun_time = 1500` and the fixture payload with `timestamp = 1500`
(exactly at activation) is answered with the `UnsupportedFork` error. -/
theorem cancun_fork_gate_c1_witness :
    requestFx.payload.into_block requestFx.parent_beacon_block_root = Except.ok blockFx
    ∧ (Store.mk (some 1500) storeFx.headers).cancunTime = some 1500
    ∧ blockFx.header.timestamp = 1500
    ∧ (new_payload_v3 modelHash (validate_block_header_model modelHash) execFx
        requestFx (Store.mk (some 1500) storeFx.headers)).1
      = Except.error RpcErr.UnsuportedFork := by
  refine ⟨rfl, rfl, rfl, ?_⟩
  exact (cancun_fork_gate_c1 modelHash (validate_block_header_model modelHash) execFx
    requestFx (Store.mk (some 1500) storeFx.headers) blockFx rfl).2.2.1 1500 rfl rfl

/-- Header whose `parent_hash` (4444) does not match the stored parent's
recomputed hash (`modelHash parentHeaderFx = 5400`). -/
def headerBadParentFx : BlockHeader := { headerFx with parent_hash := 4444 }

/-- Payload carrying `headerBadParentFx` (its block hash is still the
correct `modelHash` of the stitched header, so the pipeline reaches header
validation). -/
def payloadBadParentFx : ExecutionPayloadV3 :=
  { block_hash := 6500, header := headerBadParentFx, transactions := [],
    decode_error := none }

/-- Request carrying `payloadBadParentFx`. -/
def requestBadParentFx : NewPayloadV3Request :=
  { payload := payloadBadParentFx, expected_blob_versioned_hashes := [],
    parent_beacon_block_root := 99 }

/-- The block `payloadBadParentFx.into_block 99` reconstructs. -/
def blockBadParentFx : Block :=
  { header := { headerBadParentFx with parent_beacon_block_root := some 99 },
    body := { transactions := [] } }

/-- C3 (amended): when the parent header is found in the store but header
validation against it fails, the result is `INVALID` whose
`latestValidHash` is the *recomputed hash of the stored parent header at
height `number - 1`* — which coincides with the payload's `parent_hash`
only when the parent-hash linkage check itself was not the failing one. -/
theorem invalid_header_latest_valid_hash_c3
    (cbh : BlockHeader → H256) (vbh : BlockHeader → BlockHeader → Bool)
    (exec : Block → Store → Option (List StoreWrite))
    (request : NewPayloadV3Request) (storage : Store) (block : Block)
    (parent_header : BlockHeader)
    (hdec : request.payload.into_block request.parent_beacon_block_root = Except.ok block)
    (hgate : cancunGate storage.cancunTime block.header.timestamp = true)
    (hhash : request.payload.block_hash = cbh block.header)
    (hblob : request.expected_blob_versioned_hashes
      = (block.body.transactions.map Transaction.blob_versioned_hashes).flatten)
    (hparent : storage.headers (block.header.number - 1) = some parent_header)
    (hvalid : vbh block.header parent_header = false) :
    new_payload_v3 cbh vbh exec request storage
      = (Except.ok (PayloadStatus.invalid_with_hash (cbh parent_header)), [])
    ∧ (PayloadStatus.invalid_with_hash (cbh parent_header)).status = PayloadStatusKind.Invalid
    ∧ (PayloadStatus.invalid_with_hash (cbh parent_header)).latestValidHash
      = some (cbh parent_header) := by
  refine ⟨?_, rfl, rfl⟩
  simp [new_payload_v3, hdec, hgate, hhash, hblob, hparent, hvalid]

/-- Counterexample for C3 as stated: a concrete request whose header fails
validation (its `parent_hash` 4444 does not match the stored parent's
hash) is answered `INVALID` with `latestValidHash = 5400` — the stored
parent header's recomputed hash — which is *not* the payload's
`parent_hash`. -/
theorem c3_parent_hash_counterexample :
    storeFx.headers (blockBadParentFx.header.number - 1) = some parentHeaderFx
    ∧ validate_block_header_model modelHash blockBadParentFx.header parentHeaderFx = false
    ∧ (new_payload_v3 modelHash (validate_block_header_model modelHash) execFx
        requestBadParentFx storeFx).1
      = Except.ok (PayloadStatus.invalid_with_hash 5400)
    ∧ (PayloadStatus.invalid_with_hash 5400).status = PayloadStatusKind.Invalid
    ∧ (PayloadStatus.invalid_with_hash 5400).latestValidHash
      ≠ some requestBadParentFx.payload.header.parent_hash := by
  exact ⟨rfl, rfl, rfl, rfl, by decide⟩

/-- Witness for C3 (amended) at the same concrete input, through the
theorem itself. -/
theorem invalid_header_latest_valid_hash_c3_witness :
    validate_block_header_model modelHash blockBadParentFx.header parentHeaderFx = false
    ∧ new_payload_v3 modelHash (validate_block_header_model modelHash) execFx
        requestBadParentFx storeFx
      = (Except.ok (PayloadStatus.invalid_with_hash (modelHash parentHeaderFx)), []) := by
  refine ⟨rfl, ?_⟩
  exact (invalid_header_latest_valid_hash_c3 modelHash (validate_block_header_model modelHash)
    execFx requestBadParentFx storeFx blockBadParentFx parentHeaderFx
    rfl rfl rfl rfl rfl rfl).1

/-- C4: the pipeline recomputes the hash of the header reconstructed from
the payload and compares it with `payload.block_hash`: a mismatch (past the
fork gate) yields `INVALID` with validation error "Invalid block hash", and
every request answered `VALID` has recomputed hash equal to
`payload.block_hash`, which is returned as `latestValidHash`. -/
theorem block_hash_check_c4
    (cbh : BlockHeader → H256) (vbh : BlockHeader → BlockHeader → Bool)
    (exec : Block → Store → Option (List StoreWrite))
    (request : NewPayloadV3Request) (storage : Store) (block : Block)
    (hdec : request.payload.into_block request.parent_beacon_block_root = Except.ok block) :
    (cancunGate storage.cancunTime block.header.timestamp = true →
      request.payload.block_hash ≠ cbh block.header →
      new_payload_v3 cbh vbh exec request storage
        = (Except.ok (PayloadStatus.invalid_with_err "Invalid block hash"), []))
    ∧ (∀ st, (new_payload_v3 cbh vbh exec request storage).1 = Except.ok st →
        st.status = PayloadStatusKind.Valid →
        cbh block.header = request.payload.block_hash
        ∧ st.latestValidHash = some request.payload.block_hash) := by
  constructor
  · intro hgate hne
    simp [new_payload_v3, hdec, hgate, hne]
  · intro st h hst
    simp only [new_payload_v3, hdec] at h
    split at h
    · split at h
      · simp [PayloadStatus.invalid_with_err] at h
        rw [← h] at hst
        simp at hst
      · next hne =>
        push_neg at hne
        refine ⟨hne.symm, ?_⟩
        split at h
        · simp [PayloadStatus.invalid_with_err] at h
          rw [← h] at hst
          simp at hst
        · split at h
          · split at h
            · simp [PayloadStatus.invalid_with_hash] at h
              rw [← h] at hst
              simp at hst
            · split at h
              · simp at h
              · simp [PayloadStatus.valid_with_hash] at h
                rw [← h]
          · simp [PayloadStatus.syncing] at h
            rw [← h] at hst
            simp at hst
    · simp at h

/-- Request identical to `requestFx` except that its `block_hash` (9999)
does not match the recomputed header hash (6500). -/
def requestBadHashFx : NewPayloadV3Request :=
  { payload := { payloadFx with block_hash := 9999 },
    expected_blob_versioned_hashes := [], parent_beacon_block_root := 99 }

/-- Witness for C4 at a concrete input: the fixture request with a
corrupted `block_hash` is answered `INVALID` with validation error
"Invalid block hash" and performs no Store write. -/
theorem block_hash_check_c4_witness :
    requestBadHashFx.payload.block_hash ≠ modelHash blockFx.header
    ∧ new_payload_v3 modelHash (validate_block_header_model modelHash) execFx
        requestBadHashFx storeFx
      = (Except.ok (PayloadStatus.invalid_with_err "Invalid block hash"), []) := by
  refine ⟨by decide, ?_⟩
  exact (block_hash_check_c4 modelHash (validate_block_header_model modelHash) execFx
    requestBadHashFx storeFx blockFx rfl).1 rfl (by decide)

/-- C5: past the fork gate and the block-hash check, the concatenation of
`tx.blob_versioned_hashes` over the block's transactions in inclusion
order is compared with `expected_blob_versioned_hashes`; any difference is
answered `INVALID` with validation error "Invalid blob_versioned_hashes"
(and no Store write). -/
theorem blob_hashes_check_c5
    (cbh : BlockHeader → H256) (vbh : BlockHeader → BlockHeader → Bool)
    (exec : Block → Store → Option (List StoreWrite))
    (request : NewPayloadV3Request) (storage : Store) (block : Block)
    (hdec : request.payload.into_block request.parent_beacon_block_root = Except.ok block)
    (hgate : cancunGate storage.cancunTime block.header.timestamp = true)
    (hhash : request.payload.block_hash = cbh block.header)
    (hblob : request.expected_blob_versioned_hashes
      ≠ (block.body.transactions.map Transaction.blob_versioned_hashes).flatten) :
    new_payload_v3 cbh vbh exec request storage
      = (Except.ok (PayloadStatus.invalid_with_err "Invalid blob_versioned_hashes"), []) := by
  simp [new_payload_v3, hdec, hgate, hhash, hblob]

/-- A 4844 transaction carrying the blob-versioned hash 77. -/
def blobTxFx : Transaction := { blob_versioned_hashes := [77] }

/-- Payload whose single transaction carries blob hash 77, with a correct
block hash. -/
def payloadBlobFx : ExecutionPayloadV3 :=
  { block_hash := 6500, header := headerFx, transactions := [blobTxFx],
    decode_error := none }

/-- Request supplying `payloadBlobFx` with an *empty* expected
blob-versioned-hash list, mismatching the concatenation `[77]`. -/
def requestBlobFx : NewPayloadV3Request :=
  { payload := payloadBlobFx, expected_blob_versioned_hashes := [],
    parent_beacon_block_root := 99 }

/-- The block `payloadBlobFx.into_block 99` reconstructs. -/
def blockBlobFx : Block :=
  { header := { headerFx with parent_beacon_block_root := some 99 },
    body := { transactions := [blobTxFx] } }

/-- Witness for C5 at a concrete input: expected list `[]` against
concatenated blob hashes `[77]` yields the "Invalid blob_versioned_hashes"
`INVALID` answer. -/
theorem blob_hashes_check_c5_witness :
    requestBlobFx.expected_blob_versioned_hashes
      ≠ (blockBlobFx.body.transactions.map Transaction.blob_versioned_hashes).flatten
    ∧ new_payload_v3 modelHash (validate_block_header_model modelHash) execFx
        requestBlobFx storeFx
      = (Except.ok (PayloadStatus.invalid_with_err "Invalid blob_versioned_hashes"), []) := by
  refine ⟨by decide, ?_⟩
  exact blob_hashes_check_c5 modelHash (validate_block_header_model modelHash) execFx
    requestBlobFx storeFx blockBlobFx rfl rfl rfl (by decide)

/-- C6: when the parent-header lookup at `number - 1` finds nothing, the
pipeline answers `SYNCING` with no `latestValidHash` and performs no Store
write at all (no `add_block`, no `add_block_number`, no state
transition). -/
theorem missing_parent_syncing_c6
    (cbh : BlockHeader → H256) (vbh : BlockHeader → BlockHeader → Bool)
    (exec : Block → Store → Option (List StoreWrite))
    (request : NewPayloadV3Request) (storage : Store) (block : Block)
    (hdec : request.payload.into_block request.parent_beacon_block_root = Except.ok block)
    (hgate : cancunGate storage.cancunTime block.header.timestamp = true)
    (hhash : request.payload.block_hash = cbh block.header)
    (hblob : request.expected_blob_versioned_hashes
      = (block.body.transactions.map Transaction.blob_versioned_hashes).flatten)
    (hparent : storage.headers (block.header.number - 1) = none) :
    new_payload_v3 cbh vbh exec request storage = (Except.ok PayloadStatus.syncing, [])
    ∧ PayloadStatus.syncing.status = PayloadStatusKind.Syncing
    ∧ PayloadStatus.syncing.latestValidHash = none := by
  refine ⟨?_, rfl, rfl⟩
  simp [new_payload_v3, hdec, hgate, hhash, hblob, hparent]

/-- Fixture store with Cancun active but an empty header index. -/
def storeNoParentFx : Store :=
  { cancunTime := some 1000, headers := fun _ => none }

/-- Witness for C6 at a concrete input: the well-formed fixture request
against a store with no parent header is answered
`(SYNCING, latestValidHash = null)` with an empty write log. -/
theorem missing_parent_syncing_c6_witness :
    storeNoParentFx.headers (blockFx.header.number - 1) = none
    ∧ new_payload_v3 modelHash (validate_block_header_model modelHash) execFx
        requestFx storeNoParentFx
      = (Except.ok PayloadStatus.syncing, []) := by
  refine ⟨rfl, ?_⟩
  exact (missing_parent_syncing_c6 modelHash (validate_block_header_model modelHash) execFx
    requestFx storeNoParentFx blockFx rfl rfl rfl rfl rfl).1

/-- C2 (amended): `apply` skips unmodified accounts; a destroyed account
is removed first; then — *not* exclusively — if the account's info changed
and the new info is present it is written, with the new code written under
its code hash when the contract changed and code is present; and every
storage slot marked changed is written with its present value.  There is
no `else` between removal and the info write: an account both destroyed
and carrying changed info (revm's destroy-then-recreate) receives the
`AccountInfo` write after the removal. -/
theorem apply_bundle_writes_c2 (bundle : List (Address × BundleAccount))
    (address : Address) (account : BundleAccount)
    (hmem : (address, account) ∈ bundle) :
    (account.status.is_not_modified = true → applyBundleAccount address account = [])
    ∧ (account.status.is_not_modified = false →
        (account.status.was_destroyed = true →
          (applyBundleAccount address account).head?
            = some (StoreWrite.removeAccount address))
        ∧ (∀ i, account.is_info_changed = true → account.account_info = some i →
            StoreWrite.addAccountInfo address ⟨i.code_hash, i.balance, i.nonce⟩
              ∈ applyBundleAccount address account)
        ∧ (∀ i c, account.is_info_changed = true → account.account_info = some i →
            account.is_contract_changed = true → i.code = some c →
            StoreWrite.addAccountCode i.code_hash c ∈ applyBundleAccount address account)
        ∧ (∀ k s, (k, s) ∈ account.storage → s.is_changed = true →
            StoreWrite.addStorageAt address k s.present_value
              ∈ applyBundleAccount address account))
    ∧ (∀ w, w ∈ applyBundleAccount address account → w ∈ apply_state_transitions bundle) := by
  refine ⟨?_, ?_, ?_⟩
  · intro h
    simp [applyBundleAccount, h]
  · intro hnm
    refine ⟨?_, ?_, ?_, ?_⟩
    · intro hd
      simp [applyBundleAccount, hnm, hd]
    · intro i hic hinfo
      simp [applyBundleAccount, hnm, hic, hinfo]
    · intro i c hic hinfo hcc hcode
      simp [applyBundleAccount, hnm, hic, hinfo, hcc, hcode]
    · intro k s hks hch
      simp only [applyBundleAccount, hnm, if_false, Bool.false_eq_true, List.mem_append]
      refine Or.inr ?_
      simp only [List.mem_filterMap]
      exact ⟨(k, s), hks, by simp [hch]⟩
  · intro w hw
    have : applyBundleAccount address account
        ∈ bundle.map (fun av => applyBundleAccount av.1 av.2) :=
      List.mem_map_of_mem _ hmem
    exact List.mem_flatten.mpr ⟨_, this, hw⟩

/-- A destroy-then-recreate bundle account: destroyed, with changed and
present info, changed contract with present code, and one changed slot. -/
def destroyedChangedFx : BundleAccount :=
  { status := { is_not_modified := false, was_destroyed := true }
    is_info_changed := true
    account_info := some { code_hash := 111, balance := 5, nonce := 1, code := some [0, 96] }
    is_contract_changed := true
    storage := [(8, { present_value := 9, is_changed := true })] }

/-- Counterexample for C2 as stated: a destroyed account with changed,
present info *does* receive an `AccountInfo` write — the write stream for
the concrete destroy-then-recreate account is removal followed by the info,
code and storage writes. -/
theorem c2_destroyed_info_write_counterexample :
    destroyedChangedFx.status.was_destroyed = true
    ∧ apply_state_transitions [(42, destroyedChangedFx)]
      = [StoreWrite.removeAccount 42,
         StoreWrite.addAccountInfo 42 ⟨111, 5, 1⟩,
         StoreWrite.addAccountCode 111 [0, 96],
         StoreWrite.addStorageAt 42 8 9]
    ∧ StoreWrite.addAccountInfo 42 ⟨111, 5, 1⟩
      ∈ apply_state_transitions [(42, destroyedChangedFx)] := by
  exact ⟨rfl, rfl, by decide⟩

/-- Witness for C2 (amended) at the concrete destroy-then-recreate
account, through the theorem itself. -/
theorem apply_bundle_writes_c2_witness :
    destroyedChangedFx.status.is_not_modified = false
    ∧ (applyBundleAccount 42 destroyedChangedFx).head?
      = some (StoreWrite.removeAccount 42)
    ∧ StoreWrite.addAccountInfo 42 ⟨111, 5, 1⟩ ∈ applyBundleAccount 42 destroyedChangedFx
    ∧ StoreWrite.addAccountCode 111 [0, 96] ∈ applyBundleAccount 42 destroyedChangedFx
    ∧ StoreWrite.addStorageAt 42 8 9 ∈ apply_state_transitions [(42, destroyedChangedFx)] := by
  refine ⟨rfl, ?_, ?_, ?_, ?_⟩
  · exact ((apply_bundle_writes_c2 [(42, destroyedChangedFx)] 42 destroyedChangedFx
      (by simp)).2.1 rfl).1 rfl
  · exact ((apply_bundle_writes_c2 [(42, destroyedChangedFx)] 42 destroyedChangedFx
      (by simp)).2.1 rfl).2.1 ⟨111, 5, 1, some [0, 96]⟩ rfl rfl
  · exact ((apply_bundle_writes_c2 [(42, destroyedChangedFx)] 42 destroyedChangedFx
      (by simp)).2.1 rfl).2.2.1 ⟨111, 5, 1, some [0, 96]⟩ [0, 96] rfl rfl rfl rfl
  · exact (apply_bundle_writes_c2 [(42, destroyedChangedFx)] 42 destroyedChangedFx
      (by simp)).2.2 _
      (((apply_bundle_writes_c2 [(42, destroyedChangedFx)] 42 destroyedChangedFx
        (by simp)).2.1 rfl).2.2.2 8 ⟨9, true⟩ (by decide) rfl)

/-- C7: both the access-list discovery run and the gas-estimation run go
through the configuration with `disable_base_fee` and
`disable_block_gas_limit` set; the estimation run — on the transaction
extended with the discovered list appended to its original access list —
happens only when the discovery run succeeded, and on a revert, halt or
error the first result is returned unchanged (paired with the discovered
list). -/
theorem create_access_list_c7
    (inspect : TxEnv → BlockEnv → CfgEnv → Except EvmError (ExecutionResult × RevmAccessList))
    (transact : TxEnv → BlockEnv → CfgEnv → Except EvmError ExecutionResult)
    (tx : GenericTransaction) (header : BlockHeader) :
    feeChecksDisabledCfg.disable_base_fee = true
    ∧ feeChecksDisabledCfg.disable_block_gas_limit = true
    ∧ (∀ txe be, create_access_list_inner inspect txe be = inspect txe be feeChecksDisabledCfg)
    ∧ (∀ txe be, estimate_gas transact txe be = transact txe be feeChecksDisabledCfg)
    ∧ (∀ r al,
        inspect (tx_env_from_generic tx) (block_env header) feeChecksDisabledCfg
          = Except.ok (r, al) →
        r.is_success = false →
        create_access_list inspect transact tx header
          = Except.ok (r, al.map (fun item => (item.address, item.storage_keys))))
    ∧ (∀ r al,
        inspect (tx_env_from_generic tx) (block_env header) feeChecksDisabledCfg
          = Except.ok (r, al) →
        r.is_success = true →
        create_access_list inspect transact tx header
          = (estimate_gas transact
              { tx_env_from_generic tx with access_list := (tx_env_from_generic tx).access_list ++ al.map (fun item => (item.address, item.storage_keys)) }
              (block_env header)).map
            (fun r2 => (r2, al.map (fun item => (item.address, item.storage_keys)))))
    ∧ (∀ e,
        inspect (tx_env_from_generic tx) (block_env header) feeChecksDisabledCfg
          = Except.error e →
        create_access_list inspect transact tx header = Except.error e) := by
  refine ⟨rfl, rfl, fun _ _ => rfl, fun _ _ => rfl, ?_, ?_, ?_⟩
  · intro r al h hs
    simp [create_access_list, create_access_list_inner, h, hs]
  · intro r al h hs
    simp only [create_access_list, create_access_list_inner, h, hs, if_true]
    cases htr : estimate_gas transact
        { tx_env_from_generic tx with access_list := (tx_env_from_generic tx).access_list ++ al.map (fun item => (item.address, item.storage_keys)) }
        (block_env header) with
    | error e => simp [htr, Except.map]
    | ok r2 => simp [htr, Except.map]
  · intro e h
    simp [create_access_list, create_access_list_inner, h]

/-- A concrete reverting discovery run for the C7 witness: the inspector
reports the access list `[(7, [9])]` and the execution reverts. -/
def inspectRevertFx : TxEnv → BlockEnv → CfgEnv →
    Except EvmError (ExecutionResult × RevmAccessList) :=
  fun _ _ _ => Except.ok (ExecutionResult.Revert 5 [], [⟨7, [9]⟩])

/-- A concrete estimation oracle for the C7 witness. -/
def transactFx : TxEnv → BlockEnv → CfgEnv → Except EvmError ExecutionResult :=
  fun _ _ _ => Except.ok (ExecutionResult.Success 21000 [] [])

/-- A concrete `GenericTransaction` for the C7 witness. -/
def genericTxFx : GenericTransaction :=
  { from_addr := 3, gas := some 100000, gas_price := 10, «to» := TxKind.Call 4,
    value := 0, input := [], nonce := 0, chain_id := some 1, access_list := [],
    max_priority_fee_per_gas := none, blob_versioned_hashes := [],
    max_fee_per_blob_gas := none }

/-- Witness for C7 at a concrete input: a reverting discovery run is
returned unchanged, paired with the discovered list, and no estimation run
takes place. -/
theorem create_access_list_c7_witness :
    inspectRevertFx (tx_env_from_generic genericTxFx) (block_env headerFx)
        feeChecksDisabledCfg
      = Except.ok (ExecutionResult.Revert 5 [], [⟨7, [9]⟩])
    ∧ (ExecutionResult.Revert 5 []).is_success = false
    ∧ create_access_list inspectRevertFx transactFx genericTxFx headerFx
      = Except.ok (ExecutionResult.Revert 5 [], [(7, [9])]) := by
  refine ⟨rfl, rfl, ?_⟩
  exact (create_access_list_c7 inspectRevertFx transactFx genericTxFx headerFx).2.2.2.2.1
    (ExecutionResult.Revert 5 []) [⟨7, [9]⟩] rfl rfl

/-- C8: `beacon_root_contract_call` hands the backend the literal EIP-4788
synthetic transaction — system caller `0xff…fe`, beacon-roots contract
callee, gas limit 30 000 000, zero value, the 32-byte root as calldata,
empty access and blob-hash lists — together with the header-derived block
environment whose basefee is forced to zero. -/
theorem beacon_root_call_c8
    (run_evm : TxEnv → BlockEnv → Except EvmError ExecutionResult)
    (beacon_root : H256) (header : BlockHeader) :
    ∃ txe be, beacon_root_contract_call run_evm beacon_root header = run_evm txe be
      ∧ txe.caller = 0xfffffffffffffffffffffffffffffffffffffffe
      ∧ txe.transact_to = TxKind.Call 0x000F3df6D732807Ef1319fB7B8bB8522d0Beac02
      ∧ txe.gas_limit = 30000000
      ∧ txe.value = 0
      ∧ txe.data = hashToBytes beacon_root
      ∧ txe.data.length = 32
      ∧ txe.access_list = []
      ∧ txe.blob_hashes = []
      ∧ txe.nonce = none
      ∧ txe.gas_price = 0
      ∧ be = { block_env header with basefee := 0 }
      ∧ be.basefee = 0 := by
  refine ⟨_, _, rfl, rfl, rfl, rfl, rfl, rfl, ?_, rfl, rfl, rfl, rfl, rfl, rfl⟩
  simp [hashToBytes]

/-- C9: the JSON-RPC metadata mapping of `utils.rs`, arm by arm
(`-32601`, `-32602`, `-38005`, `-32603`), together with the two facts the
claim lives on: the pipeline maps an execution-backend failure to
`RpcErr::Vm` (evaluated on a concrete run whose `execute_block` fails), and
`utils.rs` provides *no* metadata arm for `Vm` — the variant the claim,
the spec and `engine/mod.rs` all require is missing from the enum
`utils.rs` declares. -/
theorem rpc_err_taxonomy_c9 :
    rpcErrorMetadata RpcErr.MethodNotFound = some ⟨-32601, "Method not found"⟩
    ∧ rpcErrorMetadata RpcErr.BadParams = some ⟨-32602, "Invalid params"⟩
    ∧ rpcErrorMetadata RpcErr.UnsuportedFork = some ⟨-38005, "Unsupported fork"⟩
    ∧ rpcErrorMetadata RpcErr.Internal = some ⟨-32603, "Internal Error"⟩
    ∧ (new_payload_v3 modelHash (validate_block_header_model modelHash)
        (fun _ _ => none) requestFx storeFx).1 = Except.error RpcErr.Vm
    ∧ rpcErrorMetadata RpcErr.Vm = none :=
  ⟨rfl, rfl, rfl, rfl, rfl, rfl⟩

/-- C10: `map_internal_requests` answers `MethodNotFound` on every request,
so the authenticated handler always falls through to the same
`map_requests` dispatch the plain HTTP handler uses — for every request
body, store-backed dispatch and parse function the two handlers produce
identical responses. -/
theorem handlers_equivalent_c10 (parseBody : String → RpcRequest)
    (map_requests : RpcRequest → Except RpcErr JsonValue) (body : String) :
    map_internal_requests (parseBody body) = Except.error RpcErr.MethodNotFound
    ∧ handle_authrpc_request parseBody map_requests body
      = handle_http_request parseBody map_requests body :=
  ⟨rfl, rfl⟩

